import Mathlib

/-!
Shallow embedding of the quote/settlement core of the Denzel remittance
prototype (two Streamlit files, `src/app.py` and `src/App.py`).

Monetary amounts and rates are Python floats in the prototype; here they are
modelled as exact rationals (the decimal reading of the literals), and the
Python builtin `round(x, 2)` is modelled as rounding half-to-even at two
decimal places, which is its documented behaviour.  Timestamps are modelled
as rationals (seconds); `datetime.now()` becomes an explicit `now` argument,
`uuid.uuid4()` becomes an explicit fresh-id argument, and
`random.uniform(a, b)` becomes an explicit sample argument constrained to
`[a, b]` in the theorems.
-/

set_option autoImplicit false

namespace Denzel

/-- Round half to even at the integer level: the behaviour of the Python
builtin `round` on an exact value. -/
def roundHalfEven (x : ℚ) : ℤ :=
  if x - ⌊x⌋ < 1/2 then ⌊x⌋
  else if 1/2 < x - ⌊x⌋ then ⌊x⌋ + 1
  else if ⌊x⌋ % 2 = 0 then ⌊x⌋ else ⌊x⌋ + 1

/-- Python `round(x, 2)`: round half to even at two decimal places. -/
def round2 (x : ℚ) : ℚ :=
  (roundHalfEven (x * 100) : ℚ) / 100

/-- The `Currency` dataclass (`src/app.py` lines 24-27): a per-currency balance
entry of a user wallet. -/
structure Currency where
  code : String
  balance : ℚ
  deriving Repr, DecidableEq

/-- The `User` dataclass (`src/app.py` lines 29-34): `currencies` is the Python
dict mapping currency code to `Currency`, modelled as an association list. -/
structure User where
  id : String
  name : String
  currencies : List (String × Currency)
  phone : String
  deriving Repr, DecidableEq

/-- The `Quote` dataclass (`src/app.py` lines 36-45).  Note the source record has
no status field of any kind. -/
structure Quote where
  id : String
  source_currency : String
  target_currency : String
  rate : ℚ
  fees : ℚ
  expiry : ℚ
  amount_sent : ℚ
  amount_received : ℚ
  deriving Repr, DecidableEq

/-- The `Transaction` dataclass (`src/app.py` lines 47-58), without the timestamp
field (wall-clock display data only, never read back). -/
structure Transaction where
  id : String
  sender_id : String
  receiver_id : String
  amount_sent : ℚ
  currency_sent : String
  amount_received : ℚ
  currency_received : String
  quote_id : String
  status : String
  deriving Repr, DecidableEq

/-- Lookup in an association list: Python dict read `d[k]` / `d.get(k)`. -/
def lookupA {α : Type} (k : String) : List (String × α) → Option α
  | [] => none
  | (k2, v) :: rest => if k = k2 then some v else lookupA k rest

/-- Write to an association list: Python dict write `d[k] = v` (replaces the
entry if the key is present, appends it otherwise). -/
def updateA {α : Type} (k : String) (v : α) : List (String × α) → List (String × α)
  | [] => [(k, v)]
  | (k2, v2) :: rest => if k = k2 then (k2, v) :: rest else (k2, v2) :: updateA k v rest

/-- The in-memory store of `src/app.py` (session state, lines 61-66 and 157):
users keyed by phone, quotes keyed by quote id, the append-only transaction
list, and the session current quote. -/
structure AppState where
  users : List (String × User)
  quotes : List (String × Quote)
  transactions : List Transaction
  currentQuote : Option Quote
  deriving Repr, DecidableEq

/-- Fee rule `calculate_fees` (`src/app.py` lines 68-69): `round(amount * 0.012 + 0.50, 2)`. -/
def calculate_fees (amount : ℚ) : ℚ :=
  round2 (amount * (12/1000) + 1/2)

/-- Fee rule `calculate_fees` of the second prototype (`src/App.py` lines 47-48):
`round(amount * 0.015 + 1.0, 2)`. -/
def calculate_fees0 (amount : ℚ) : ℚ :=
  round2 (amount * (15/1000) + 1)

/-- Rate resolution inlined in `PaymentProcessor.create_quote`
(`src/app.py` lines 90-91): a three-entry pinned table consulted with
`dict.get`, falling back to a `random.uniform(0.85, 1.15)` sample `u`. -/
def resolve_rate (source target : String) (u : ℚ) : ℚ :=
  if source = "USD" ∧ target = "EUR" then 93/100
  else if source = "USD" ∧ target = "NGN" then 1620
  else if source = "EUR" ∧ target = "NGN" then 1750
  else u

/-- Rate resolution of the second prototype (`src/App.py` lines 62-63):
`0.92` for USD to EUR, otherwise a `random.uniform(0.8, 1.2)` sample `u`. -/
def resolve_rate0 (source target : String) (u : ℚ) : ℚ :=
  if source = "USD" ∧ target = "EUR" then 92/100 else u

/-- Quote creation `PaymentProcessor.create_quote` (`src/app.py` lines 88-106): resolves the
rate, computes the fee and `received = round(amount * rate - fees, 2)`, builds
the quote with a ten-minute expiry (600 seconds), stores it in the quote
collection keyed by its id, and returns it.  `qid` stands for the
`uuid.uuid4()` fresh id, `now` for `datetime.now()`, `u` for the uniform
fallback-rate sample. -/
def create_quote (qid : String) (now u : ℚ) (source target : String) (amount : ℚ)
    (σ : AppState) : AppState × Quote :=
  let rate := resolve_rate source target u
  let fees := calculate_fees amount
  let received := round2 (amount * rate - fees)
  let q : Quote :=
    { id := qid
      source_currency := source
      target_currency := target
      rate := rate
      fees := fees
      expiry := now + 600
      amount_sent := amount
      amount_received := received }
  ({ σ with quotes := updateA qid q σ.quotes }, q)

/-- Failure modes of the settlement path.  The handler in `src/app.py`
produces only the first three: `noActiveQuote` when no current quote is in
the session (the confirm button is not rendered, lines 160 and 186),
`quoteExpired` for the expiry warning path (lines 166-168), and
`missingAccount` for the Python `KeyError` raised by the sender or currency
dict reads (lines 191 and 203).  The remaining constructors are the
specification error taxonomy, present so that spec-level claims can be
stated; the source never produces them. -/
inductive SettleError where
  | noActiveQuote
  | quoteExpired
  | missingAccount
  | quoteNotFound
  | quoteAlreadyConsumed
  | insufficientFunds
  deriving Repr, DecidableEq

/-- Outcome of a settlement attempt. -/
inductive SettleResult where
  | ok (tx : Transaction)
  | error (e : SettleError)
  deriving Repr, DecidableEq

/-- The Confirm and Transfer handler of `src/app.py` (lines 160-211), the only
settlement path of the program.  With no current quote in the session the
block is not rendered (modelled as `noActiveQuote`).  With a current quote:
if `max(0, expiry - now) <= 0` the handler warns that the quote expired and
deletes the current quote (lines 164-168); otherwise, on the button press, it
builds a `Transaction` with status `Settled` and appends it (lines 189-200),
debits the sender source-currency balance by `amount_sent + fees`
(lines 202-204), and deletes the current quote (line 211).  `txId` stands for
the `uuid.uuid4()` fresh transaction id, `phone` is the sender phone of the
sidebar, `receiverPhone` the receiver field. -/
def confirmTransfer (txId : String) (now : ℚ) (phone receiverPhone : String)
    (σ : AppState) : AppState × SettleResult :=
  match σ.currentQuote with
  | none => (σ, .error .noActiveQuote)
  | some q =>
    if q.expiry - now ≤ 0 then
      ({ σ with currentQuote := none }, .error .quoteExpired)
    else
      match lookupA phone σ.users with
      | none => (σ, .error .missingAccount)
      | some sender =>
        match lookupA q.source_currency sender.currencies with
        | none => (σ, .error .missingAccount)
        | some bal =>
          let tx : Transaction :=
            { id := txId
              sender_id := sender.id
              receiver_id := receiverPhone
              amount_sent := q.amount_sent
              currency_sent := q.source_currency
              amount_received := q.amount_received
              currency_received := q.target_currency
              quote_id := q.id
              status := "Settled" }
          let bal2 : Currency := { bal with balance := bal.balance - (q.amount_sent + q.fees) }
          let sender2 : User := { sender with currencies := updateA q.source_currency bal2 sender.currencies }
          ({ σ with
              users := updateA phone sender2 σ.users
              transactions := σ.transactions ++ [tx]
              currentQuote := none },
           .ok tx)

/-- Balance of user `ph` in currency `c`, read off the store. -/
def balanceOf (σ : AppState) (ph c : String) : Option ℚ :=
  match lookupA ph σ.users with
  | none => none
  | some u =>
    match lookupA c u.currencies with
    | none => none
    | some cur => some cur.balance

/-- The demo sender auto-provisioned by the sidebar of `src/app.py`
(lines 117-129): balances 2500 USD, 1800 EUR, 4500000 NGN. -/
def demoUser : User :=
  ⟨"u1", "Denzel",
    [("USD", ⟨"USD", 2500⟩), ("EUR", ⟨"EUR", 1800⟩), ("NGN", ⟨"NGN", 4500000⟩)],
    "+234"⟩

/-- Store holding only the demo sender, before any quote. -/
def initState : AppState := ⟨[("+234", demoUser)], [], [], none⟩

/-- Scenario A: quote 100 USD to NGN at time 0 (pinned rate 1620). -/
def quoteStep : AppState × Quote := create_quote "q1" 0 1 "USD" "NGN" 100 initState

/-- Scenario A after line 157 of `src/app.py` stores the current quote in the
session. -/
def lockedState : AppState := { quoteStep.1 with currentQuote := some quoteStep.2 }

/-- Scenario A: first settlement attempt, 10 seconds in (quote unexpired). -/
def settle1 : AppState × SettleResult := confirmTransfer "t1" 10 "+234" "+1555" lockedState

/-- Scenario A: second settlement attempt on the same quote id. -/
def settle2 : AppState × SettleResult := confirmTransfer "t2" 20 "+234" "+1555" settle1.1

/-- A receiver that exists in the store with an NGN balance of 50. -/
def rcvUser : User := ⟨"u2", "Ada", [("NGN", ⟨"NGN", 50⟩)], "+235"⟩

/-- Scenario B: store holding the demo sender and the receiver `rcvUser`. -/
def initStateB : AppState := ⟨[("+234", demoUser), ("+235", rcvUser)], [], [], none⟩

/-- Scenario B: quote 100 USD to NGN at time 0. -/
def quoteStepB : AppState × Quote := create_quote "q2" 0 1 "USD" "NGN" 100 initStateB

/-- Scenario B with the current quote locked in the session. -/
def lockedStateB : AppState := { quoteStepB.1 with currentQuote := some quoteStepB.2 }

/-- Scenario B: settlement towards the known receiver phone. -/
def settleB : AppState × SettleResult := confirmTransfer "t2b" 10 "+234" "+235" lockedStateB

/-- A sender holding only 10 USD. -/
def poorUser : User := ⟨"u3", "Sam", [("USD", ⟨"USD", 10⟩)], "+30"⟩

/-- Scenario C: store holding only `poorUser`. -/
def initStateC : AppState := ⟨[("+30", poorUser)], [], [], none⟩

/-- Scenario C: quote 200 USD to EUR at time 0, far above the sender balance. -/
def quoteStepC : AppState × Quote := create_quote "q3" 0 1 "USD" "EUR" 200 initStateC

/-- Scenario C with the current quote locked in the session. -/
def lockedStateC : AppState := { quoteStepC.1 with currentQuote := some quoteStepC.2 }

/-- Scenario C: settlement attempt with insufficient sender balance. -/
def settleC : AppState × SettleResult := confirmTransfer "t3" 5 "+30" "+31" lockedStateC

/-- Scenario D: quote 14000 USD to EUR for the demo sender, above its 2500 USD
balance (14000 is within the UI bounds 5 to 15000 of `src/app.py` line 151). -/
def quoteStepD : AppState × Quote := create_quote "q4" 0 1 "USD" "EUR" 14000 initState

/-- Scenario D with the current quote locked in the session. -/
def lockedStateD : AppState := { quoteStepD.1 with currentQuote := some quoteStepD.2 }

/-- Scenario D: settlement attempt that overdraws the demo sender. -/
def settleD : AppState × SettleResult := confirmTransfer "t4" 5 "+234" "+1555" lockedStateD

/-- Scenario E: quote 0.50 USD to EUR, the fee-exceeds-amount edge case. -/
def quoteStepE : AppState × Quote := create_quote "q5" 0 1 "USD" "EUR" (1/2) initState

/-- Half-to-even rounding never goes below the floor. -/
theorem roundHalfEven_ge_floor (x : ℚ) : ⌊x⌋ ≤ roundHalfEven x := by
  unfold roundHalfEven
  split_ifs <;> omega

/-- Half-to-even rounding never exceeds the floor plus one. -/
theorem roundHalfEven_le_floor_add_one (x : ℚ) : roundHalfEven x ≤ ⌊x⌋ + 1 := by
  unfold roundHalfEven
  split_ifs <;> omega

/-- Half-to-even rounding of a non-negative number is non-negative. -/
theorem roundHalfEven_nonneg {x : ℚ} (h : 0 ≤ x) : 0 ≤ roundHalfEven x :=
  le_trans (Int.floor_nonneg.mpr h) (roundHalfEven_ge_floor x)

/-- Half-to-even rounding is monotone. -/
theorem roundHalfEven_mono {x y : ℚ} (h : x ≤ y) : roundHalfEven x ≤ roundHalfEven y := by
  rcases lt_or_eq_of_le (Int.floor_le_floor h) with hf | hf
  · have h1 := roundHalfEven_le_floor_add_one x
    have h2 := roundHalfEven_ge_floor y
    omega
  · have hx : (⌊x⌋ : ℚ) ≤ x := Int.floor_le x
    unfold roundHalfEven
    rw [← hf]
    split_ifs <;> first | omega | linarith

/-- Rounding to two decimals preserves non-negativity. -/
theorem round2_nonneg {x : ℚ} (h : 0 ≤ x) : 0 ≤ round2 x := by
  unfold round2
  have h1 : (0 : ℚ) ≤ (roundHalfEven (x * 100) : ℚ) := by
    exact_mod_cast roundHalfEven_nonneg (by linarith)
  linarith

/-- Rounding to two decimals is monotone. -/
theorem round2_mono {x y : ℚ} (h : x ≤ y) : round2 x ≤ round2 y := by
  unfold round2
  have h1 : roundHalfEven (x * 100) ≤ roundHalfEven (y * 100) :=
    roundHalfEven_mono (by linarith)
  have h2 : (roundHalfEven (x * 100) : ℚ) ≤ (roundHalfEven (y * 100) : ℚ) := by
    exact_mod_cast h1
  linarith

/-- Reading back the key just written into an association list. -/
theorem lookupA_updateA_self {α : Type} (k : String) (v : α) (l : List (String × α)) :
    lookupA k (updateA k v l) = some v := by
  induction l with
  | nil => simp [lookupA, updateA]
  | cons hd tl ih =>
    obtain ⟨k2, v2⟩ := hd
    by_cases h : k = k2
    · simp [lookupA, updateA, h]
    · simp [lookupA, updateA, h, ih]

/-- Writing one key leaves every other key unchanged. -/
theorem lookupA_updateA_ne {α : Type} {k k2 : String} (v : α) (l : List (String × α))
    (h : k2 ≠ k) : lookupA k2 (updateA k v l) = lookupA k2 l := by
  induction l with
  | nil => simp [lookupA, updateA, h]
  | cons hd tl ih =>
    obtain ⟨k3, v3⟩ := hd
    by_cases hk : k = k3
    · subst hk
      simp [lookupA, updateA, h]
    · simp only [updateA, if_neg hk, lookupA]
      by_cases hk2 : k2 = k3
      · simp [hk2]
      · simp [hk2, ih]

/-- With no current quote in the session, the Confirm and Transfer block is
not rendered: the settlement attempt changes nothing and no transaction is
produced. -/
theorem confirmTransfer_noActive (txId : String) (now : ℚ) (phone rcv : String)
    (σ : AppState) (h : σ.currentQuote = none) :
    confirmTransfer txId now phone rcv σ = (σ, .error .noActiveQuote) := by
  unfold confirmTransfer
  rw [h]

/-- Every settlement attempt either ends with no current quote in the session,
or leaves the store untouched and reports an error. -/
theorem confirmTransfer_shape (txId : String) (now : ℚ) (phone rcv : String)
    (σ : AppState) :
    (confirmTransfer txId now phone rcv σ).1.currentQuote = none ∨
    ((confirmTransfer txId now phone rcv σ).1 = σ ∧
      ∃ e, (confirmTransfer txId now phone rcv σ).2 = SettleResult.error e) := by
  unfold confirmTransfer
  split
  · exact Or.inr ⟨rfl, ⟨.noActiveQuote, rfl⟩⟩
  · split
    · exact Or.inl rfl
    · split
      · exact Or.inr ⟨rfl, ⟨.missingAccount, rfl⟩⟩
      · split
        · exact Or.inr ⟨rfl, ⟨.missingAccount, rfl⟩⟩
        · exact Or.inl rfl

/-- A successful settlement always deletes the session current quote
(line 211 of `src/app.py`). -/
theorem confirmTransfer_ok_clears (txId : String) (now : ℚ) (phone rcv : String)
    (σ : AppState) (tx : Transaction)
    (h : (confirmTransfer txId now phone rcv σ).2 = .ok tx) :
    (confirmTransfer txId now phone rcv σ).1.currentQuote = none := by
  rcases confirmTransfer_shape txId now phone rcv σ with hc | ⟨-, e, he⟩
  · exact hc
  · rw [h] at he
    exact absurd he (by simp)

/-- C6: for every valid input (amount within the UI bounds 5 to 15000,
fallback sample in the range of `random.uniform(0.85, 1.15)`), `create_quote`
returns a quote with positive rate, non-negative fee, and
`amount_received = round(amount * rate - fee, 2)`; in particular the quote
for 100 USD to NGN at the pinned rate 1620 carries fee 1.70 and
amount received 161998.30. -/
theorem create_quote_valid (qid : String) (now u : ℚ) (source target : String)
    (amount : ℚ) (σ : AppState)
    (hu1 : 85/100 ≤ u) (hu2 : u ≤ 115/100) (ha1 : 5 ≤ amount) (ha2 : amount ≤ 15000) :
    0 < (create_quote qid now u source target amount σ).2.rate ∧
    0 ≤ (create_quote qid now u source target amount σ).2.fees ∧
    (create_quote qid now u source target amount σ).2.amount_received =
      round2 ((create_quote qid now u source target amount σ).2.amount_sent *
        (create_quote qid now u source target amount σ).2.rate -
        (create_quote qid now u source target amount σ).2.fees) ∧
    (create_quote qid now u "USD" "NGN" 100 σ).2.fees = 17/10 ∧
    (create_quote qid now u "USD" "NGN" 100 σ).2.amount_received = 1619983/10 := by
  refine ⟨?_, ?_, ?_, ?_, ?_⟩
  · show 0 < resolve_rate source target u
    unfold resolve_rate
    split_ifs <;> linarith
  · show 0 ≤ calculate_fees amount
    exact round2_nonneg (by linarith)
  · rfl
  · show calculate_fees 100 = 17/10
    norm_num [calculate_fees, round2, roundHalfEven]
  · simp [create_quote, resolve_rate]
    norm_num [calculate_fees, round2, roundHalfEven]

/-- Witness for C6 at the concrete input of the spec example:
quote "q" for 100 USD to NGN with fallback sample 1. -/
theorem create_quote_valid_wit :
    (85:ℚ)/100 ≤ 1 ∧ (1:ℚ) ≤ 115/100 ∧ (5:ℚ) ≤ 100 ∧ (100:ℚ) ≤ 15000 ∧
    0 < (create_quote "q" 0 1 "USD" "NGN" 100 initState).2.rate ∧
    (create_quote "q" 0 1 "USD" "NGN" 100 initState).2.fees = 17/10 ∧
    (create_quote "q" 0 1 "USD" "NGN" 100 initState).2.amount_received = 1619983/10 := by
  have h := create_quote_valid "q" 0 1 "USD" "NGN" 100 initState
    (by norm_num) (by norm_num) (by norm_num) (by norm_num)
  exact ⟨by norm_num, by norm_num, by norm_num, by norm_num, h.1, h.2.2.2.1, h.2.2.2.2⟩

/-- C8: rate resolution is total and strictly positive in both prototypes:
pinned pairs are answered deterministically from the table, every other pair
gets the uniform fallback sample, which is positive on its range. -/
theorem resolve_rate_contract (source target : String) (u u0 : ℚ)
    (hu1 : 85/100 ≤ u) (hu2 : u ≤ 115/100) (h01 : 8/10 ≤ u0) (h02 : u0 ≤ 12/10) :
    0 < resolve_rate source target u ∧
    0 < resolve_rate0 source target u0 ∧
    resolve_rate "USD" "EUR" u = 93/100 ∧
    resolve_rate "USD" "NGN" u = 1620 ∧
    resolve_rate "EUR" "NGN" u = 1750 ∧
    resolve_rate0 "USD" "EUR" u0 = 92/100 ∧
    (¬((source = "USD" ∧ target = "EUR") ∨ (source = "USD" ∧ target = "NGN") ∨
        (source = "EUR" ∧ target = "NGN")) → resolve_rate source target u = u) := by
  refine ⟨?_, ?_, ?_, ?_, ?_, ?_, ?_⟩
  · unfold resolve_rate
    split_ifs <;> linarith
  · unfold resolve_rate0
    split_ifs <;> linarith
  · simp [resolve_rate]
  · simp [resolve_rate]
  · simp [resolve_rate]
  · simp [resolve_rate0]
  · intro hn
    unfold resolve_rate
    rw [if_neg (fun hc => hn (Or.inl hc)), if_neg (fun hc => hn (Or.inr (Or.inl hc))),
      if_neg (fun hc => hn (Or.inr (Or.inr hc)))]

/-- Witness for C8 at a pinned pair and an unknown pair, sample 1. -/
theorem resolve_rate_contract_wit :
    (85:ℚ)/100 ≤ 1 ∧ (1:ℚ) ≤ 115/100 ∧ (8:ℚ)/10 ≤ 1 ∧ (1:ℚ) ≤ 12/10 ∧
    0 < resolve_rate "AAA" "BBB" 1 ∧
    resolve_rate "USD" "EUR" 1 = 93/100 ∧
    resolve_rate "AAA" "BBB" 1 = 1 := by
  have h := resolve_rate_contract "AAA" "BBB" 1 1 (by norm_num) (by norm_num)
    (by norm_num) (by norm_num)
  exact ⟨by norm_num, by norm_num, by norm_num, by norm_num, h.1, h.2.2.1,
    h.2.2.2.2.2.2 (by simp)⟩

/-- C9: the fee rules of both prototypes are non-negative and monotonically
non-decreasing on positive amounts. -/
theorem calculate_fees_monotone (a1 a2 : ℚ) (h0 : 0 < a1) (h : a1 ≤ a2) :
    0 ≤ calculate_fees a1 ∧ calculate_fees a1 ≤ calculate_fees a2 ∧
    0 ≤ calculate_fees0 a1 ∧ calculate_fees0 a1 ≤ calculate_fees0 a2 := by
  refine ⟨?_, ?_, ?_, ?_⟩
  · exact round2_nonneg (by linarith)
  · exact round2_mono (by linarith)
  · exact round2_nonneg (by linarith)
  · exact round2_mono (by linarith)

/-- Witness for C9 at amounts 1 and 2. -/
theorem calculate_fees_monotone_wit :
    (0:ℚ) < 1 ∧ (1:ℚ) ≤ 2 ∧ 0 ≤ calculate_fees 1 ∧ calculate_fees 1 ≤ calculate_fees 2 := by
  have h := calculate_fees_monotone 1 2 (by norm_num) (by norm_num)
  exact ⟨by norm_num, by norm_num, h.1, h.2.1⟩

/-- C7: a settlement attempt on a current quote whose expiry has passed fails
on the expiry path (the warning of lines 166-168 of `src/app.py`) and leaves
every account balance unchanged. -/
theorem settle_expired_fails (txId : String) (now : ℚ) (phone rcv : String)
    (σ : AppState) (q : Quote) (hq : σ.currentQuote = some q) (hexp : q.expiry < now) :
    (confirmTransfer txId now phone rcv σ).2 = .error .quoteExpired ∧
    ∀ ph c, balanceOf (confirmTransfer txId now phone rcv σ).1 ph c = balanceOf σ ph c := by
  have hcond : q.expiry - now ≤ 0 := by linarith
  have hres : confirmTransfer txId now phone rcv σ =
      ({ σ with currentQuote := none }, .error .quoteExpired) := by
    unfold confirmTransfer
    simp only [hq]
    rw [if_pos hcond]
  constructor
  · rw [hres]
  · intro ph c
    rw [hres]
    simp only [balanceOf]

/-- Witness for C7: scenario A settled at time 1000, past the 600-second
expiry of the quote. -/
theorem settle_expired_fails_wit :
    lockedState.currentQuote = some quoteStep.2 ∧
    quoteStep.2.expiry < 1000 ∧
    (confirmTransfer "tx" 1000 "+234" "+1555" lockedState).2 = .error .quoteExpired ∧
    balanceOf (confirmTransfer "tx" 1000 "+234" "+1555" lockedState).1 "+234" "USD" =
      balanceOf lockedState "+234" "USD" := by
  have h1 : lockedState.currentQuote = some quoteStep.2 := rfl
  have h2 : quoteStep.2.expiry < 1000 := by
    show (0:ℚ) + 600 < 1000
    norm_num
  have h := settle_expired_fails "tx" 1000 "+234" "+1555" lockedState quoteStep.2 h1 h2
  exact ⟨h1, h2, h.1, h.2 "+234" "USD"⟩

/-- C10: the frame of a successful settlement as implemented: only the sender
source-currency balance entry changes (debited by `amount_sent + fees`), every
other (user, currency) balance is untouched, and the stored quote collection
is unchanged (nothing is marked consumed). -/
theorem settle_frame (txId : String) (now : ℚ) (phone rcv : String) (σ : AppState)
    (q : Quote) (sender : User) (bal : Currency)
    (hq : σ.currentQuote = some q) (hnow : now < q.expiry)
    (hs : lookupA phone σ.users = some sender)
    (hb : lookupA q.source_currency sender.currencies = some bal) :
    (confirmTransfer txId now phone rcv σ).2 =
      .ok ⟨txId, sender.id, rcv, q.amount_sent, q.source_currency, q.amount_received,
        q.target_currency, q.id, "Settled"⟩ ∧
    (confirmTransfer txId now phone rcv σ).1.quotes = σ.quotes ∧
    balanceOf (confirmTransfer txId now phone rcv σ).1 phone q.source_currency =
      some (bal.balance - (q.amount_sent + q.fees)) ∧
    ∀ ph c, ¬(ph = phone ∧ c = q.source_currency) →
      balanceOf (confirmTransfer txId now phone rcv σ).1 ph c = balanceOf σ ph c := by
  have hcond : ¬(q.expiry - now ≤ 0) := by linarith
  have hres : confirmTransfer txId now phone rcv σ =
      (⟨updateA phone
          ⟨sender.id, sender.name,
            updateA q.source_currency ⟨bal.code, bal.balance - (q.amount_sent + q.fees)⟩
              sender.currencies,
            sender.phone⟩ σ.users,
        σ.quotes,
        σ.transactions ++ [⟨txId, sender.id, rcv, q.amount_sent, q.source_currency,
          q.amount_received, q.target_currency, q.id, "Settled"⟩],
        none⟩,
       .ok ⟨txId, sender.id, rcv, q.amount_sent, q.source_currency, q.amount_received,
        q.target_currency, q.id, "Settled"⟩) := by
    unfold confirmTransfer
    simp only [hq]
    rw [if_neg hcond]
    simp only [hs, hb]
  refine ⟨by rw [hres], by rw [hres], ?_, ?_⟩
  · rw [hres]
    simp only [balanceOf, lookupA_updateA_self]
  · intro ph c hne
    rw [hres]
    by_cases hph : ph = phone
    · subst hph
      have hc : c ≠ q.source_currency := fun hcc => hne ⟨rfl, hcc⟩
      simp only [balanceOf, lookupA_updateA_self, hs]
      rw [lookupA_updateA_ne _ _ hc]
    · simp only [balanceOf]
      rw [lookupA_updateA_ne _ _ hph]

/-- Witness for C10: scenario A settled at time 10; the EUR balance of the
sender is part of the untouched frame. -/
theorem settle_frame_wit :
    lockedState.currentQuote = some quoteStep.2 ∧
    (10:ℚ) < quoteStep.2.expiry ∧
    lookupA "+234" lockedState.users = some demoUser ∧
    lookupA quoteStep.2.source_currency demoUser.currencies = some ⟨"USD", 2500⟩ ∧
    (confirmTransfer "t1" 10 "+234" "+1555" lockedState).1.quotes = lockedState.quotes ∧
    balanceOf (confirmTransfer "t1" 10 "+234" "+1555" lockedState).1 "+234"
      quoteStep.2.source_currency =
      some ((2500:ℚ) - (quoteStep.2.amount_sent + quoteStep.2.fees)) ∧
    balanceOf (confirmTransfer "t1" 10 "+234" "+1555" lockedState).1 "+234" "EUR" =
      balanceOf lockedState "+234" "EUR" := by
  have h1 : lockedState.currentQuote = some quoteStep.2 := rfl
  have h2 : (10:ℚ) < quoteStep.2.expiry := by
    show (10:ℚ) < (0:ℚ) + 600
    norm_num
  have h3 : lookupA "+234" lockedState.users = some demoUser := by
    simp [lockedState, quoteStep, create_quote, initState, lookupA]
  have h4 : lookupA quoteStep.2.source_currency demoUser.currencies = some ⟨"USD", 2500⟩ := by
    show lookupA "USD" demoUser.currencies = some ⟨"USD", 2500⟩
    simp [demoUser, lookupA]
  have h := settle_frame "t1" 10 "+234" "+1555" lockedState quoteStep.2 demoUser
    ⟨"USD", 2500⟩ h1 h2 h3 h4
  have h5 := h.2.2.2 "+234" "EUR" (by
    show ¬("+234" = "+234" ∧ "EUR" = "USD")
    simp)
  exact ⟨h1, h2, h3, h4, h.2.1, h.2.2.1, h5⟩

/-- C1 (amended): a successful settlement clears the session current quote, so
a second settlement attempt on the same quote id fails (because no active
quote is present; the code has no QuoteAlreadyConsumed error) and leaves the
store unchanged, producing no second Settled transaction. -/
theorem settle_exactly_once (txId txId2 : String) (now now2 : ℚ)
    (phone phone2 rcv rcv2 : String) (σ : AppState) (tx : Transaction)
    (h : (confirmTransfer txId now phone rcv σ).2 = .ok tx) :
    (confirmTransfer txId now phone rcv σ).1.currentQuote = none ∧
    confirmTransfer txId2 now2 phone2 rcv2 (confirmTransfer txId now phone rcv σ).1 =
      ((confirmTransfer txId now phone rcv σ).1, .error .noActiveQuote) := by
  have hn := confirmTransfer_ok_clears txId now phone rcv σ tx h
  exact ⟨hn, confirmTransfer_noActive _ _ _ _ _ hn⟩

/-- Witness for C1: scenario A, first settlement at time 10, second attempt at
time 20. -/
theorem settle_exactly_once_wit :
    (confirmTransfer "t1" 10 "+234" "+1555" lockedState).2 =
      .ok ⟨"t1", "u1", "+1555", 100, "USD", 1619983/10, "NGN", "q1", "Settled"⟩ ∧
    (confirmTransfer "t1" 10 "+234" "+1555" lockedState).1.currentQuote = none ∧
    confirmTransfer "t2" 20 "+234" "+1555" (confirmTransfer "t1" 10 "+234" "+1555" lockedState).1 =
      ((confirmTransfer "t1" 10 "+234" "+1555" lockedState).1, .error .noActiveQuote) := by
  have h : (confirmTransfer "t1" 10 "+234" "+1555" lockedState).2 =
      .ok ⟨"t1", "u1", "+1555", 100, "USD", 1619983/10, "NGN", "q1", "Settled"⟩ := by
    simp [lockedState, quoteStep, create_quote, initState, demoUser, confirmTransfer,
      resolve_rate, lookupA, updateA]
    norm_num [calculate_fees, round2, roundHalfEven]
  have h2 := settle_exactly_once "t1" "t2" 10 20 "+234" "+234" "+1555" "+1555" lockedState _ h
  exact ⟨h, h2.1, h2.2⟩

/-- C1 (counterexample to the claim as stated): in scenario A the first
settlement succeeds, and the second settlement attempt on the same quote id
fails with `noActiveQuote` rather than with `QuoteAlreadyConsumed`: the code
never produces a QuoteAlreadyConsumed failure. -/
theorem settle_second_error_cex :
    settle1.2 = .ok ⟨"t1", "u1", "+1555", 100, "USD", 1619983/10, "NGN", "q1", "Settled"⟩ ∧
    settle2.2 = .error .noActiveQuote ∧
    settle2.2 ≠ .error .quoteAlreadyConsumed ∧
    settle2.1.transactions = settle1.1.transactions := by
  have h1 : settle1.2 = .ok ⟨"t1", "u1", "+1555", 100, "USD", 1619983/10, "NGN", "q1",
      "Settled"⟩ := by
    simp [settle1, lockedState, quoteStep, create_quote, initState, demoUser, confirmTransfer,
      resolve_rate, lookupA, updateA]
    norm_num [calculate_fees, round2, roundHalfEven]
  have hn : settle1.1.currentQuote = none :=
    confirmTransfer_ok_clears "t1" 10 "+234" "+1555" lockedState _ h1
  have h2 : settle2 = (settle1.1, .error .noActiveQuote) :=
    confirmTransfer_noActive "t2" 20 "+234" "+1555" settle1.1 hn
  refine ⟨h1, by rw [show settle2 = _ from h2], ?_, by rw [show settle2 = _ from h2]⟩
  rw [show settle2 = _ from h2]
  simp

/-- C2 (code bug): scenario B settles a 100 USD to NGN quote towards a
receiver that exists with an NGN balance of 50.  The settlement succeeds and
appends a Settled transaction carrying `amount_received = 161998.30`, yet the
receiver NGN balance stays 50 (the handler never credits the receiver, its
"Fake balance update" only debits the sender) and the stored quote collection
is unchanged (no Consumed status exists). -/
theorem settle_no_receiver_credit_bug :
    settleB.2 = .ok ⟨"t2b", "u1", "+235", 100, "USD", 1619983/10, "NGN", "q2", "Settled"⟩ ∧
    (0:ℚ) < 1619983/10 ∧
    balanceOf lockedStateB "+235" "NGN" = some 50 ∧
    balanceOf settleB.1 "+235" "NGN" = some 50 ∧
    balanceOf settleB.1 "+234" "USD" = some (23983/10) ∧
    settleB.1.quotes = lockedStateB.quotes := by
  refine ⟨?_, by norm_num, ?_, ?_, ?_, ?_⟩
  · simp [settleB, lockedStateB, quoteStepB, create_quote, initStateB, demoUser, rcvUser,
      confirmTransfer, resolve_rate, lookupA, updateA]
    norm_num [calculate_fees, round2, roundHalfEven]
  · simp [lockedStateB, quoteStepB, create_quote, initStateB, demoUser, rcvUser,
      balanceOf, lookupA, updateA]
  · simp [settleB, lockedStateB, quoteStepB, create_quote, initStateB, demoUser, rcvUser,
      confirmTransfer, resolve_rate, balanceOf, lookupA, updateA]
    try norm_num [calculate_fees, round2, roundHalfEven]
  · simp [settleB, lockedStateB, quoteStepB, create_quote, initStateB, demoUser, rcvUser,
      confirmTransfer, resolve_rate, balanceOf, lookupA, updateA]
    norm_num [calculate_fees, round2, roundHalfEven]
  · simp [settleB, lockedStateB, quoteStepB, create_quote, initStateB, demoUser, rcvUser,
      confirmTransfer, resolve_rate, balanceOf, lookupA, updateA]
    try norm_num [calculate_fees, round2, roundHalfEven]

/-- C3 (code bug): in scenario C the sender holds 10 USD while the quote costs
`amount_sent + fees = 202.90` USD.  The settlement does not fail with
InsufficientFunds: it succeeds (Settled transaction appended) and debits the
sender to -192.90, a partial debit below zero. -/
theorem settle_no_insufficient_funds_check_bug :
    balanceOf lockedStateC "+30" "USD" = some 10 ∧
    quoteStepC.2.amount_sent + quoteStepC.2.fees = 2029/10 ∧
    (10:ℚ) < 2029/10 ∧
    settleC.2 = .ok ⟨"t3", "u3", "+31", 200, "USD", 1831/10, "EUR", "q3", "Settled"⟩ ∧
    balanceOf settleC.1 "+30" "USD" = some (-(1929/10)) ∧
    (-(1929/10) : ℚ) < 0 := by
  refine ⟨?_, ?_, by norm_num, ?_, ?_, by norm_num⟩
  · simp [lockedStateC, quoteStepC, create_quote, initStateC, poorUser, balanceOf, lookupA,
      updateA]
  · show (200:ℚ) + calculate_fees 200 = 2029/10
    norm_num [calculate_fees, round2, roundHalfEven]
  · simp [settleC, lockedStateC, quoteStepC, create_quote, initStateC, poorUser,
      confirmTransfer, resolve_rate, lookupA, updateA]
    norm_num [calculate_fees, round2, roundHalfEven]
  · simp [settleC, lockedStateC, quoteStepC, create_quote, initStateC, poorUser,
      confirmTransfer, resolve_rate, balanceOf, lookupA, updateA]
    norm_num [calculate_fees, round2, roundHalfEven]

/-- C4 (code bug): scenario D starts from the demo sender with non-negative
balances (2500 USD) and settles a quote costing 14168.50 USD.  The settlement
succeeds and leaves the sender USD balance at -11668.50: a successful
settlement drives a balance negative, violating the invariant. -/
theorem settle_negative_balance_bug :
    balanceOf initState "+234" "USD" = some 2500 ∧ (0:ℚ) ≤ 2500 ∧
    settleD.2 = .ok ⟨"t4", "u1", "+1555", 14000, "USD", 25703/2, "EUR", "q4", "Settled"⟩ ∧
    balanceOf settleD.1 "+234" "USD" = some (-(23337/2)) ∧
    (-(23337/2) : ℚ) < 0 := by
  refine ⟨?_, by norm_num, ?_, ?_, by norm_num⟩
  · simp [initState, demoUser, balanceOf, lookupA]
  · simp [settleD, lockedStateD, quoteStepD, create_quote, initState, demoUser,
      confirmTransfer, resolve_rate, lookupA, updateA]
    norm_num [calculate_fees, round2, roundHalfEven]
  · simp [settleD, lockedStateD, quoteStepD, create_quote, initState, demoUser,
      confirmTransfer, resolve_rate, balanceOf, lookupA, updateA]
    norm_num [calculate_fees, round2, roundHalfEven]

/-- C5 (code bug): the call `create_quote("USD","EUR",0.50)` computes
`fees = round(0.50 * 0.012 + 0.50, 2) = 0.51` and
`received = round(0.50 * 0.93 - 0.51, 2) = -0.04 < 0`, and the function
neither fails (it is total and has no FeeExceedsAmount path) nor clamps: the
negative-value quote is returned and stored in the quote collection. -/
theorem create_quote_negative_received_bug :
    quoteStepE.2.amount_received = -(1/25) ∧
    quoteStepE.2.amount_received < 0 ∧
    lookupA "q5" quoteStepE.1.quotes = some quoteStepE.2 := by
  have h1 : quoteStepE.2.amount_received = -(1/25) := by
    show round2 ((1/2) * resolve_rate "USD" "EUR" 1 - calculate_fees (1/2)) = -(1/25)
    simp only [resolve_rate]
    norm_num [calculate_fees, round2, roundHalfEven]
  refine ⟨h1, by rw [h1]; norm_num, ?_⟩
  exact lookupA_updateA_self "q5" quoteStepE.2 initState.quotes

end Denzel
